import Mathlib

/-!
Shallow embedding of the react-pc-mobile LAN CRUD application:
the React Native client's connection reconciliation logic
(`tryHealth`, `connectWithBaseUrl`, `connectFromSaved`,
`startZeroconfDiscovery`, the QR decode handler, the forget button)
and the Express server's `/items` routes.
-/

namespace LanCrud

/-! ## JavaScript string trimming

`String.prototype.trim` removes the ECMAScript WhiteSpace and
LineTerminator code points from both ends of a string. The client uses
it in `onQrScanned` (`String(parsed?.baseUrl || "").trim()`) and the
server uses it on item titles (`String(req.body?.title ?? "").trim()`).
-/

/-- ECMAScript whitespace: TAB, LF, VT, FF, CR, SP, NBSP, Zs code
points, LS, PS and ZWNBSP. -/
def isJsWhitespace (c : Char) : Bool :=
  ([0x9, 0xA, 0xB, 0xC, 0xD, 0x20, 0xA0, 0x1680, 0x2028, 0x2029,
    0x202F, 0x205F, 0x3000, 0xFEFF] : List Nat).contains c.toNat
  || (0x2000 ≤ c.toNat && c.toNat ≤ 0x200A)

/-- Trim ECMAScript whitespace from both ends of a character list. -/
def jsTrimList (l : List Char) : List Char :=
  (l.dropWhile isJsWhitespace).rdropWhile isJsWhitespace

/-- JavaScript `s.trim()`. -/
def jsTrim (s : String) : String :=
  ⟨jsTrimList s.data⟩

/-- Once the leading whitespace is gone, trimming the tail cannot
create new leading whitespace. -/
theorem dropWhile_rdropWhile_dropWhile (p : Char → Bool) (l : List Char) :
    ((l.dropWhile p).rdropWhile p).dropWhile p = (l.dropWhile p).rdropWhile p := by
  rcases ht : (l.dropWhile p).rdropWhile p with _ | ⟨a, r⟩
  · rfl
  · obtain ⟨t, htl⟩ := List.rdropWhile_prefix p (l.dropWhile p)
    rw [ht] at htl
    have hlen : 0 < (l.dropWhile p).length := by
      rw [← htl]; simp
    have hnp : ¬ p ((l.dropWhile p).get ⟨0, hlen⟩) :=
      List.dropWhile_get_zero_not p l hlen
    have hhead : (l.dropWhile p).get ⟨0, hlen⟩ = a := by
      have : l.dropWhile p = a :: (r ++ t) := by
        rw [← htl]; rfl
      simp [this]
    rw [hhead] at hnp
    simp [List.dropWhile_cons, hnp]

/-- JavaScript trim is idempotent on character lists. -/
theorem jsTrimList_idem (l : List Char) :
    jsTrimList (jsTrimList l) = jsTrimList l := by
  unfold jsTrimList
  rw [dropWhile_rdropWhile_dropWhile, List.rdropWhile_idempotent]

/-- JavaScript trim is idempotent: a trimmed string has no leading or
trailing whitespace left to remove. -/
theorem jsTrim_idem (s : String) : jsTrim (jsTrim s) = jsTrim s := by
  unfold jsTrim
  simp [jsTrimList_idem]

/-! ## Liveness prober

`tryHealth(baseUrl)` performs `fetch(baseUrl + "/health")` with no
timeout option, checks `res.ok`, parses the body with
`res.json().catch(() => null)` and returns `!!data?.ok`. A rejection of
the `fetch` promise itself (network unreachable) is not caught inside
`tryHealth` and propagates to the caller.
-/

/-- Outcome of the `fetch` call inside `tryHealth`. `body` models
`res.json().catch(() => null)`: `none` when the body is malformed JSON,
otherwise the truthiness of `data?.ok` (missing marker gives
`some false`). -/
inductive FetchOutcome where
  | networkError
  | response (ok : Bool) (body : Option Bool)
deriving DecidableEq, Repr

/-- Error escaping `tryHealth`: the rejected `fetch` promise. -/
inductive ProbeError where
  | fetchRejected
deriving DecidableEq, Repr

/-- Shallow embedding of `tryHealth` as a function of the fetch
outcome. `Except.error` marks an exception propagating to the caller. -/
def tryHealth : FetchOutcome → Except ProbeError Bool
  | .networkError => .error .fetchRejected
  | .response ok body => if !ok then .ok false else .ok (body.getD false)

/-! ## Client connection state

The React state relevant to reconciliation: the persisted SecureStore
value under `STORE_KEY`, the `baseUrl` state (`null` = not connected),
the `status` line, and whether a zeroconf listener is active.
-/

structure AppState where
  store : Option String
  baseUrl : Option String
  status : String
  discoveryRunning : Bool
deriving DecidableEq, Repr

/-- Error escaping `connectWithBaseUrl`. -/
inductive ConnectError where
  | probeRejected
  | unreachable
  | storageError
deriving DecidableEq, Repr

/-- Continuation of `connectWithBaseUrl` from the point where
`await tryHealth(url)` resumes. It closes only over `url` and the state
setters; nothing in it re-reads the current connection state or checks
a generation token before committing. `saveFails` tells whether
`SecureStore.setItemAsync` rejects. -/
def probeResume (saveFails : Bool) (url : String)
    (result : Except ProbeError Bool) (s : AppState) :
    AppState × Option ConnectError :=
  match result with
  | .error _ => (s, some .probeRejected)
  | .ok false => ({ s with status := "No se pudo conectar." }, some .unreachable)
  | .ok true =>
      if saveFails then (s, some .storageError)
      else ({ s with store := some url, baseUrl := some url,
                     status := "Conectado" }, none)

/-- Shallow embedding of `connectWithBaseUrl(url)`: set the probing
status, await `tryHealth(url)` (modelled by the oracle `health`), then
run the continuation. -/
def connectWithBaseUrl (health : String → Except ProbeError Bool)
    (saveFails : Bool) (url : String) (s : AppState) :
    AppState × Option ConnectError :=
  probeResume saveFails url (health url) { s with status := "Probando conexion..." }

/-- Shallow embedding of `connectFromSaved()`: read the store; when a
value is present try to connect, returning `true` on success and
`false` when `connectWithBaseUrl` threw (the `catch` branch). -/
def connectFromSaved (health : String → Except ProbeError Bool)
    (saveFails : Bool) (s : AppState) : AppState × Bool :=
  match s.store with
  | none => (s, false)
  | some saved =>
      match connectWithBaseUrl health saveFails saved s with
      | (s', none) => (s', true)
      | (s', some _) => (s', false)

/-- Shallow embedding of the synchronous part of
`startZeroconfDiscovery()`: create and start a zeroconf scan and set
the searching status. The resolved/error handlers and the 6-second
timer are modelled separately below. -/
def startZeroconfDiscovery (s : AppState) : AppState :=
  { s with discoveryRunning := true, status := "Buscando por mDNS (Zeroconf)..." }

/-- Shallow embedding of the `setTimeout` callback scheduled by
`startZeroconfDiscovery`: `if (!baseUrl) setStatus(...)`. The callback
reads the `baseUrl` binding captured by the closure at the render in
which `startZeroconfDiscovery` was created — for the mount-time run
that captured value is `none` — and it never touches the zeroconf
listener. -/
def discoveryTimeoutHint (capturedBaseUrl : Option String) (s : AppState) : AppState :=
  if capturedBaseUrl.isNone then
    { s with status := "No se encontro por mDNS. Usa QR (fallback)." }
  else s

/-- Shallow embedding of the startup `useEffect`: try the saved base
url first; only when that returns `false` start zeroconf discovery.
The returned flag records whether `startZeroconfDiscovery` was
invoked. -/
def startupEffect (health : String → Except ProbeError Bool)
    (saveFails : Bool) (s : AppState) : AppState × Bool :=
  match connectFromSaved health saveFails s with
  | (s', true) => (s', false)
  | (s', false) => (startZeroconfDiscovery s', true)

/-- Shallow embedding of the `Olvidar` button handler:
`SecureStore.deleteItemAsync(STORE_KEY); setBaseUrl(null); setStatus(...)`. -/
def forget (s : AppState) : AppState :=
  { s with store := none, baseUrl := none,
           status := "BaseUrl borrada. Busca de nuevo." }

/-! ## Zeroconf resolved handler -/

/-- Default port used when the advertisement carries a falsy port. -/
def DEFAULT_PORT : Nat := 4310

/-- Data of a resolved zeroconf service as read by the handler:
`service?.addresses` and `service?.port`. -/
structure ResolvedService where
  addresses : Option (List String)
  port : Option Nat
deriving DecidableEq, Repr

/-- JavaScript `s.includes(".")`: the string contains a dot. -/
def jsIncludesDot (x : String) : Bool := x.data.contains '.'

/-- JavaScript `s.startsWith(pre)`. -/
def jsStartsWith (s pre : String) : Bool := pre.data.isPrefixOf s.data

/-- The address filter of the resolved handler:
`(x) => typeof x === "string" && x.includes(".")`. -/
def looksIPv4 (x : String) : Bool := jsIncludesDot x

/-- Port selection `service?.port || DEFAULT_PORT` (`0` is falsy). -/
def servicePort (svc : ResolvedService) : Nat :=
  match svc.port with
  | some p => if p = 0 then DEFAULT_PORT else p
  | none => DEFAULT_PORT

/-- Candidate url produced by the resolved handler before probing:
`service?.addresses?.find(...)`, then `if (!ip) return`, else
`http://ip:port`. Returns `none` when the advertisement is dropped
without starting a probe. -/
def resolvedCandidate (svc : ResolvedService) : Option String :=
  match (svc.addresses.getD []).find? looksIPv4 with
  | none => none
  | some ip => some ("http://" ++ ip ++ ":" ++ toString (servicePort svc))

/-! ## Out-of-band QR code decoding -/

/-- Result of `JSON.parse(data)` followed by
`String(parsed?.baseUrl || "")`: `unparseable` when `JSON.parse`
throws, otherwise the string coercion of a truthy `baseUrl` field
(`none` for a missing or falsy one, which coerces to `""`). -/
inductive QrPayload where
  | unparseable
  | parsed (baseUrl : Option String)
deriving DecidableEq, Repr

/-- Decoding part of `onQrScanned` / `onQrData`: trim the coerced
`baseUrl` and require the `"http"` scheme test `url.startsWith("http")`
to pass, else throw `QR invalido (sin baseUrl)`. -/
def decodeQr : QrPayload → Except String String
  | .unparseable => .error "JSON.parse"
  | .parsed b =>
      let url := jsTrim (b.getD "")
      if jsStartsWith url "http" then .ok url
      else .error "QR invalido (sin baseUrl)"

/-- Shallow embedding of `onQrScanned`: on a decode failure the `catch`
only raises an alert and the connection state is untouched; on success
`connectWithBaseUrl` runs (whose own failure is caught by the same
`catch` after its state updates took place). -/
def onQrScanned (health : String → Except ProbeError Bool)
    (saveFails : Bool) (payload : QrPayload) (s : AppState) : AppState :=
  match decodeQr payload with
  | .error _ => s
  | .ok url => (connectWithBaseUrl health saveFails url s).1

/-! ## Server: the `/items` routes

The Express server keeps a single SQLite table
`items(id INTEGER PRIMARY KEY AUTOINCREMENT, title TEXT NOT NULL,
updated_at TEXT NOT NULL)`. It is embedded as a list of rows plus the
autoincrement counter.
-/

structure Item where
  id : Int
  title : String
  updated_at : String
deriving DecidableEq, Repr

structure ItemsDb where
  rows : List Item
  seq : Int
deriving DecidableEq, Repr

/-- HTTP status together with the database after the request. -/
structure ApiResponse where
  status : Nat
  db : ItemsDb
deriving DecidableEq, Repr

/-- Shallow embedding of `POST /items`: coerce and trim the title
(`String(req.body?.title ?? "").trim()`), reject a falsy result with
400, otherwise insert a fresh row. -/
def postItems (db : ItemsDb) (bodyTitle : Option String) (now : String) :
    ApiResponse :=
  let title := jsTrim (bodyTitle.getD "")
  if title = "" then ⟨400, db⟩
  else
    let id := db.seq + 1
    ⟨201, ⟨db.rows ++ [⟨id, title, now⟩], id⟩⟩

/-- Shallow embedding of `PUT /items/:id`: `idParam` is
`Number(req.params.id)` with `none` for a non-finite result; the route
rejects a non-positive id and a falsy trimmed title with 400, a missing
row with 404, and otherwise updates title and timestamp. -/
def putItem (db : ItemsDb) (idParam : Option Int) (bodyTitle : Option String)
    (now : String) : ApiResponse :=
  let title := jsTrim (bodyTitle.getD "")
  match idParam with
  | none => ⟨400, db⟩
  | some id =>
      if id ≤ 0 then ⟨400, db⟩
      else if title = "" then ⟨400, db⟩
      else if (db.rows.find? (fun r => r.id == id)).isNone then ⟨404, db⟩
      else ⟨200, ⟨db.rows.map (fun r =>
        if r.id == id then { r with title := title, updated_at := now } else r),
        db.seq⟩⟩

/-- Shallow embedding of `DELETE /items/:id`. -/
def deleteItem (db : ItemsDb) (idParam : Option Int) : ApiResponse :=
  match idParam with
  | none => ⟨400, db⟩
  | some id =>
      if id ≤ 0 then ⟨400, db⟩
      else if (db.rows.find? (fun r => r.id == id)).isNone then ⟨404, db⟩
      else ⟨200, ⟨db.rows.filter (fun r => r.id != id), db.seq⟩⟩

/-- A title as the store invariant wants it: non-empty and free of
leading and trailing whitespace (its own trim fixes it). -/
def goodTitle (t : String) : Prop := t ≠ "" ∧ jsTrim t = t

/-- Every row of the table satisfies the title invariant. -/
def titlesOk (db : ItemsDb) : Prop := ∀ it ∈ db.rows, goodTitle it.title

/-! ## Claims about the connection reconciler -/

/-- C1: if `connectWithBaseUrl url` moves the state to `Connected(url)`
(the `baseUrl` state becomes `url` when it was not before), then
`tryHealth url` returned success strictly before the transition and
`url` was written to the SecureStore endpoint store at the moment
`Connected(url)` is set. -/
theorem connected_implies_probed_and_persisted
    (health : String → Except ProbeError Bool) (saveFails : Bool)
    (url : String) (s : AppState)
    (hnot : s.baseUrl ≠ some url)
    (hconn : (connectWithBaseUrl health saveFails url s).1.baseUrl = some url) :
    health url = .ok true ∧
    (connectWithBaseUrl health saveFails url s).1.store = some url := by
  rcases h : health url with e | b
  · simp [connectWithBaseUrl, probeResume, h] at hconn
    exact absurd hconn hnot
  · rcases b with _ | _
    · simp [connectWithBaseUrl, probeResume, h] at hconn
      exact absurd hconn hnot
    · by_cases hsf : saveFails
      · simp [connectWithBaseUrl, probeResume, h, hsf] at hconn
        exact absurd hconn hnot
      · simp [connectWithBaseUrl, probeResume, h, hsf]

/-- C1 witness: a concrete run in which the state reaches
`Connected(url)`, with both hypotheses discharged. -/
theorem connected_implies_probed_and_persisted_witness :
    (fun _ : String => (Except.ok true : Except ProbeError Bool))
        "http://192.168.1.50:4310" = .ok true ∧
    (connectWithBaseUrl (fun _ => .ok true) false "http://192.168.1.50:4310"
        ⟨none, none, "Buscando server...", false⟩).1.store =
      some "http://192.168.1.50:4310" :=
  connected_implies_probed_and_persisted
    (fun _ => .ok true) false "http://192.168.1.50:4310"
    ⟨none, none, "Buscando server...", false⟩
    (by simp) (by rfl)

/-- C2: when the store holds a persisted endpoint `E` and the liveness
probe of `E` succeeds (the store write succeeding as well), the startup
effect reaches `Connected(E)` and `startZeroconfDiscovery` is never
invoked in that run. -/
theorem saved_probe_success_connects_without_discovery
    (health : String → Except ProbeError Bool) (s : AppState) (E : String)
    (hstore : s.store = some E) (hok : health E = .ok true) :
    (startupEffect health false s).2 = false ∧
    (startupEffect health false s).1.baseUrl = some E ∧
    (startupEffect health false s).1.store = some E ∧
    (startupEffect health false s).1.status = "Conectado" ∧
    (startupEffect health false s).1.discoveryRunning = s.discoveryRunning := by
  unfold startupEffect connectFromSaved connectWithBaseUrl probeResume
  simp [hstore, hok]

/-- C2 witness: a concrete startup run resuming a persisted endpoint
with no discovery. -/
theorem saved_probe_success_connects_without_discovery_witness :
    (startupEffect (fun _ => .ok true) false
        ⟨some "http://10.0.0.9:4310", none, "Buscando server...", false⟩).2 = false ∧
    (startupEffect (fun _ => .ok true) false
        ⟨some "http://10.0.0.9:4310", none, "Buscando server...", false⟩).1.baseUrl =
      some "http://10.0.0.9:4310" ∧
    (startupEffect (fun _ => .ok true) false
        ⟨some "http://10.0.0.9:4310", none, "Buscando server...", false⟩).1.store =
      some "http://10.0.0.9:4310" ∧
    (startupEffect (fun _ => .ok true) false
        ⟨some "http://10.0.0.9:4310", none, "Buscando server...", false⟩).1.status =
      "Conectado" ∧
    (startupEffect (fun _ => .ok true) false
        ⟨some "http://10.0.0.9:4310", none, "Buscando server...", false⟩).1.discoveryRunning =
      (⟨some "http://10.0.0.9:4310", none, "Buscando server...", false⟩ : AppState).discoveryRunning :=
  saved_probe_success_connects_without_discovery
    (fun _ => .ok true) ⟨some "http://10.0.0.9:4310", none, "Buscando server...", false⟩
    "http://10.0.0.9:4310" rfl rfl

/-- C3: when the store holds a persisted endpoint `E` and the probe of
`E` fails (negative result or a rejected fetch), the startup effect
transitions to searching, starts the discovery channel, and the store
still holds `E` untouched; the store is emptied only by the explicit
forget action. -/
theorem saved_probe_failure_starts_discovery_store_kept
    (health : String → Except ProbeError Bool) (saveFails : Bool)
    (s : AppState) (E : String)
    (hstore : s.store = some E) (hfail : health E ≠ .ok true) :
    (startupEffect health saveFails s).2 = true ∧
    (startupEffect health saveFails s).1.store = some E ∧
    (startupEffect health saveFails s).1.discoveryRunning = true ∧
    (startupEffect health saveFails s).1.status = "Buscando por mDNS (Zeroconf)..." ∧
    (∀ s' : AppState, (forget s').store = none) := by
  unfold startupEffect connectFromSaved connectWithBaseUrl probeResume
  rcases h : health E with e | b
  · simp [hstore, h, startZeroconfDiscovery, forget]
  · rcases b with _ | _
    · simp [hstore, h, startZeroconfDiscovery, forget]
    · exact absurd h hfail

/-- C3 witness: a concrete startup run whose persisted endpoint fails
the probe. -/
theorem saved_probe_failure_starts_discovery_store_kept_witness :
    (startupEffect (fun _ => .ok false) false
        ⟨some "http://10.0.0.9:4310", none, "Buscando server...", false⟩).2 = true ∧
    (startupEffect (fun _ => .ok false) false
        ⟨some "http://10.0.0.9:4310", none, "Buscando server...", false⟩).1.store =
      some "http://10.0.0.9:4310" ∧
    (startupEffect (fun _ => .ok false) false
        ⟨some "http://10.0.0.9:4310", none, "Buscando server...", false⟩).1.discoveryRunning = true ∧
    (startupEffect (fun _ => .ok false) false
        ⟨some "http://10.0.0.9:4310", none, "Buscando server...", false⟩).1.status =
      "Buscando por mDNS (Zeroconf)..." ∧
    (∀ s' : AppState, (forget s').store = none) :=
  saved_probe_failure_starts_discovery_store_kept
    (fun _ => .ok false) false
    ⟨some "http://10.0.0.9:4310", none, "Buscando server...", false⟩
    "http://10.0.0.9:4310" rfl (by simp)

/-- C4 counterexample: on a network-unreachable fetch, `tryHealth` does
not return a negative result — the rejection escapes as an exception,
refuting "returns a negative result and never raises" for that cause. -/
theorem tryHealth_network_error_raises :
    tryHealth .networkError = .error .fetchRejected ∧
    ¬ ∃ b : Bool, tryHealth .networkError = .ok b := by
  refine ⟨rfl, ?_⟩
  rintro ⟨b, hb⟩
  cases hb

/-- C4 amended: `tryHealth` returns `false` without raising for a
non-success HTTP status and for a malformed or missing success marker
in the body, but a network-unreachable fetch makes it raise (the
rejection propagates to its caller), and no timeout is attached to the
probe request. -/
theorem tryHealth_negative_cases (body : Option Bool) :
    tryHealth (.response false body) = .ok false ∧
    tryHealth (.response true none) = .ok false ∧
    tryHealth (.response true (some false)) = .ok false ∧
    tryHealth (.response true (some true)) = .ok true ∧
    tryHealth .networkError = .error .fetchRejected :=
  ⟨rfl, rfl, rfl, rfl, rfl⟩

/-- C5: decoding `\x7b"baseUrl":"http://192.168.1.50:4310"\x7d` yields
the candidate `http://192.168.1.50:4310`, decoding
`\x7b"baseUrl":"not-a-url"\x7d` or `\x7b\x7d` throws the invalid-code
error and produces no candidate; in general decoding fails whenever
`JSON.parse` throws or the trimmed `baseUrl` fails the scheme test, and
a decode failure leaves the connection state untouched. -/
theorem qr_decode_examples_and_failure_preserves_state
    (health : String → Except ProbeError Bool) (saveFails : Bool)
    (p : QrPayload) (s : AppState) :
    decodeQr (.parsed (some "http://192.168.1.50:4310")) =
      .ok "http://192.168.1.50:4310" ∧
    decodeQr (.parsed (some "not-a-url")) = .error "QR invalido (sin baseUrl)" ∧
    decodeQr (.parsed none) = .error "QR invalido (sin baseUrl)" ∧
    decodeQr .unparseable = .error "JSON.parse" ∧
    (∀ b : Option String, jsStartsWith (jsTrim (b.getD "")) "http" = false →
      decodeQr (.parsed b) = .error "QR invalido (sin baseUrl)") ∧
    ((∃ e, decodeQr p = .error e) → onQrScanned health saveFails p s = s) := by
  refine ⟨by rfl, by rfl, by rfl, by rfl, ?_, ?_⟩
  · intro b hb
    simp [decodeQr, hb]
  · rintro ⟨e, he⟩
    simp [onQrScanned, he]

/-- C5 witness: the failing decode of `\x7b"baseUrl":"not-a-url"\x7d`
leaves a concrete connection state unchanged. -/
theorem qr_decode_examples_and_failure_preserves_state_witness :
    onQrScanned (fun _ => .ok true) false (.parsed (some "not-a-url"))
        ⟨none, none, "Buscando server...", false⟩ =
      ⟨none, none, "Buscando server...", false⟩ ∧
    decodeQr (.parsed (some "ftp://192.168.1.50:21")) =
      .error "QR invalido (sin baseUrl)" :=
  ⟨(qr_decode_examples_and_failure_preserves_state (fun _ => .ok true) false
      (.parsed (some "not-a-url")) ⟨none, none, "Buscando server...", false⟩).2.2.2.2.2
      ⟨"QR invalido (sin baseUrl)", by rfl⟩,
   (qr_decode_examples_and_failure_preserves_state (fun _ => .ok true) false
      (.parsed (some "ftp://192.168.1.50:21")) ⟨none, none, "Buscando server...", false⟩).2.2.2.2.1
      (some "ftp://192.168.1.50:21") (by rfl)⟩

/-- A successful `List.find?` returns a matching element, and every
element before it fails the test. -/
theorem find?_eq_some_first {α : Type} (p : α → Bool) :
    ∀ (l : List α) (a : α), l.find? p = some a →
      p a = true ∧ ∃ pre post, l = pre ++ a :: post ∧ ∀ y ∈ pre, p y = false
  | [], a, h => by simp at h
  | x :: xs, a, h => by
    by_cases hx : p x
    · rw [List.find?_cons_of_pos _ hx] at h
      cases h
      exact ⟨hx, [], xs, rfl, by simp⟩
    · rw [List.find?_cons_of_neg _ hx] at h
      obtain ⟨hpa, pre, post, hl, hpre⟩ := find?_eq_some_first p xs a h
      refine ⟨hpa, x :: pre, post, by simp [hl], ?_⟩
      intro y hy
      rcases List.mem_cons.mp hy with rfl | hy
      · simpa using hx
      · exact hpre y hy

/-- C6: the resolved handler forms its candidate from the first address
of the advertisement that passes the dotted-address test, and when no
address qualifies the advertisement is dropped with no candidate and no
probe. -/
theorem resolved_picks_first_dotted_or_drops (svc : ResolvedService) :
    (∀ ip, (svc.addresses.getD []).find? looksIPv4 = some ip →
      resolvedCandidate svc =
        some ("http://" ++ ip ++ ":" ++ toString (servicePort svc)) ∧
      looksIPv4 ip = true ∧
      ∃ pre post, svc.addresses.getD [] = pre ++ ip :: post ∧
        ∀ y ∈ pre, looksIPv4 y = false) ∧
    ((svc.addresses.getD []).find? looksIPv4 = none →
      resolvedCandidate svc = none) := by
  constructor
  · intro ip hip
    obtain ⟨h1, h2⟩ := find?_eq_some_first looksIPv4 _ ip hip
    exact ⟨by simp [resolvedCandidate, hip], h1, h2⟩
  · intro h
    simp [resolvedCandidate, h]

/-- C6 witness: an advertisement offering a link-local IPv6 address
first yields the candidate built from the first dotted address, and an
advertisement with only IPv6 addresses is dropped. -/
theorem resolved_picks_first_dotted_or_drops_witness :
    resolvedCandidate ⟨some ["fe80::1", "192.168.1.7", "10.0.0.3"], some 4310⟩ =
      some ("http://" ++ "192.168.1.7" ++ ":" ++
        toString (servicePort ⟨some ["fe80::1", "192.168.1.7", "10.0.0.3"], some 4310⟩)) ∧
    resolvedCandidate ⟨some ["fe80::1", "fe80::2"], none⟩ = none :=
  ⟨((resolved_picks_first_dotted_or_drops
      ⟨some ["fe80::1", "192.168.1.7", "10.0.0.3"], some 4310⟩).1
      "192.168.1.7" (by rfl)).1,
   (resolved_picks_first_dotted_or_drops ⟨some ["fe80::1", "fe80::2"], none⟩).2 (by rfl)⟩

/-- C7 counterexample: with a probe of `http://10.0.0.5:4310` in flight
(the state is past `setStatus("Probando conexion...")`), pressing
forget empties the store and the connection, yet when the probe resumes
with success its continuation still sets the state to `Connected` —
the late success does resurrect a connected state. -/
theorem forget_then_late_probe_success_reconnects :
    (forget ⟨some "http://10.0.0.5:4310", none, "Probando conexion...", false⟩).baseUrl
      = none ∧
    (forget ⟨some "http://10.0.0.5:4310", none, "Probando conexion...", false⟩).store
      = none ∧
    (probeResume false "http://10.0.0.5:4310" (.ok true)
        (forget ⟨some "http://10.0.0.5:4310", none, "Probando conexion...", false⟩)).1.baseUrl
      = some "http://10.0.0.5:4310" :=
  ⟨rfl, rfl, rfl⟩

/-- C7 amended: forget sets the state to idle and empties the store,
but the code carries no generation token: an in-flight probe that later
succeeds re-runs the `connectWithBaseUrl` continuation, which re-saves
the endpoint and sets the state back to `Connected`. -/
theorem forget_clears_state_but_no_probe_cancellation (s : AppState) (url : String) :
    (forget s).baseUrl = none ∧
    (forget s).store = none ∧
    (forget s).status = "BaseUrl borrada. Busca de nuevo." ∧
    (probeResume false url (.ok true) (forget s)).1.baseUrl = some url ∧
    (probeResume false url (.ok true) (forget s)).1.store = some url :=
  ⟨rfl, rfl, rfl, rfl, rfl⟩

/-- C8: the 6-second discovery timer never stops the zeroconf channel
and only ever touches the status line; but its guard reads the stale
`baseUrl` captured at mount (always `none` for the startup run), so the
"use QR" hint fires even while an endpoint is connected. -/
theorem timeout_hint_keeps_channel_but_fires_when_connected :
    (∀ (cap : Option String) (s : AppState),
      (discoveryTimeoutHint cap s).discoveryRunning = s.discoveryRunning ∧
      (discoveryTimeoutHint cap s).baseUrl = s.baseUrl ∧
      (discoveryTimeoutHint cap s).store = s.store) ∧
    (⟨some "http://192.168.1.7:4310", some "http://192.168.1.7:4310",
        "Conectado", true⟩ : AppState).baseUrl = some "http://192.168.1.7:4310" ∧
    (discoveryTimeoutHint none
      ⟨some "http://192.168.1.7:4310", some "http://192.168.1.7:4310",
        "Conectado", true⟩).status = "No se encontro por mDNS. Usa QR (fallback)." ∧
    (discoveryTimeoutHint none
      ⟨some "http://192.168.1.7:4310", some "http://192.168.1.7:4310",
        "Conectado", true⟩).discoveryRunning = true := by
  refine ⟨?_, by rfl, by rfl, by rfl⟩
  intro cap s
  unfold discoveryTimeoutHint
  split <;> exact ⟨rfl, rfl, rfl⟩

/-- C9 counterexample: the probe of `http://192.168.1.7:4310` succeeds
but the SecureStore write rejects; the `StorageError` escapes
`connectWithBaseUrl` before `setBaseUrl` runs, so the state does not
become `Connected` — contradicting "surfaced only as a warning and does
not prevent the Connected transition". -/
theorem storage_failure_aborts_connected_transition :
    connectWithBaseUrl (fun _ => .ok true) true "http://192.168.1.7:4310"
        ⟨none, none, "Buscando server...", false⟩ =
      (⟨none, none, "Probando conexion...", false⟩, some .storageError) := by
  rfl

/-- C9 amended: when the probe succeeds but the store write fails, the
thrown `StorageError` propagates out of `connectWithBaseUrl` before
`setBaseUrl` runs: the connection state and the store are left
unchanged and the reconciler does not reach `Connected` for the
session. -/
theorem storage_failure_prevents_connected
    (health : String → Except ProbeError Bool) (url : String) (s : AppState)
    (hok : health url = .ok true) :
    (connectWithBaseUrl health true url s).1.baseUrl = s.baseUrl ∧
    (connectWithBaseUrl health true url s).1.store = s.store ∧
    (connectWithBaseUrl health true url s).2 = some .storageError := by
  simp [connectWithBaseUrl, probeResume, hok]

/-- C9 witness: a concrete probe-success run with a failing store
write. -/
theorem storage_failure_prevents_connected_witness :
    (connectWithBaseUrl (fun _ => .ok true) true "http://10.0.0.9:4310"
        ⟨none, none, "Buscando server...", false⟩).1.baseUrl =
      (⟨none, none, "Buscando server...", false⟩ : AppState).baseUrl ∧
    (connectWithBaseUrl (fun _ => .ok true) true "http://10.0.0.9:4310"
        ⟨none, none, "Buscando server...", false⟩).1.store =
      (⟨none, none, "Buscando server...", false⟩ : AppState).store ∧
    (connectWithBaseUrl (fun _ => .ok true) true "http://10.0.0.9:4310"
        ⟨none, none, "Buscando server...", false⟩).2 = some .storageError :=
  storage_failure_prevents_connected (fun _ => .ok true) "http://10.0.0.9:4310"
    ⟨none, none, "Buscando server...", false⟩ rfl

/-! ## Claims about the server's items table -/

/-- A trimmed non-empty title satisfies the row invariant. -/
theorem goodTitle_of_jsTrim (t : String) (h : jsTrim t ≠ "") : goodTitle (jsTrim t) :=
  ⟨h, jsTrim_idem t⟩

/-- C10: every row of the items table keeps a non-empty title with no
leading or trailing whitespace: `POST /items` and `PUT /items/:id` trim
the supplied title and answer 400 with the table unchanged when the
trim is empty (missing, empty or whitespace-only title), and every
route preserves the invariant. -/
theorem items_title_invariant
    (db : ItemsDb) (bt : Option String) (idp : Option Int) (now : String)
    (hdb : titlesOk db) :
    titlesOk (postItems db bt now).db ∧
    (jsTrim (bt.getD "") = "" → postItems db bt now = ⟨400, db⟩) ∧
    titlesOk (putItem db idp bt now).db ∧
    (jsTrim (bt.getD "") = "" →
      (putItem db idp bt now).status = 400 ∧ (putItem db idp bt now).db = db) ∧
    titlesOk (deleteItem db idp).db := by
  refine ⟨?_, ?_, ?_, ?_, ?_⟩
  · unfold postItems
    by_cases h : jsTrim (bt.getD "") = ""
    · simpa [h] using hdb
    · simp only [h, if_false]
      intro it hit
      rcases List.mem_append.mp hit with hold | hnew
      · exact hdb it hold
      · rcases List.mem_singleton.mp hnew with rfl
        exact goodTitle_of_jsTrim _ h
  · intro h
    simp [postItems, h]
  · unfold putItem
    rcases idp with _ | id
    · exact hdb
    · by_cases hid : id ≤ 0
      · simpa [hid] using hdb
      · by_cases h : jsTrim (bt.getD "") = ""
        · simpa [hid, h] using hdb
        · by_cases hfind : ((db.rows.find? (fun r => r.id == id)).isNone : Bool)
          · simpa [hid, h, hfind] using hdb
          · simp only [hid, h, hfind, if_false, if_neg, Bool.false_eq_true]
            intro it hit
            simp only [List.mem_map] at hit
            obtain ⟨r, hr, rfl⟩ := hit
            by_cases hrid : (r.id == id : Bool)
            · simp only [hrid, if_true]
              exact goodTitle_of_jsTrim _ h
            · simp only [hrid, if_false, Bool.false_eq_true]
              exact hdb r hr
  · intro h
    unfold putItem
    rcases idp with _ | id
    · exact ⟨rfl, rfl⟩
    · by_cases hid : id ≤ 0
      · simp [hid]
      · simp [hid, h]
  · unfold deleteItem
    rcases idp with _ | id
    · exact hdb
    · by_cases hid : id ≤ 0
      · simpa [hid] using hdb
      · by_cases hfind : ((db.rows.find? (fun r => r.id == id)).isNone : Bool)
        · simpa [hid, hfind] using hdb
        · simp only [hid, hfind, if_false, Bool.false_eq_true]
          intro it hit
          exact hdb it (List.mem_of_mem_filter hit)

/-- C10 witness: a concrete table with one good row, a whitespace-only
POST body and a PUT against row 1. -/
theorem items_title_invariant_witness :
    titlesOk (postItems ⟨[⟨1, "hola", "t0"⟩], 1⟩ (some "  nueva  ") "t1").db ∧
    (jsTrim ((some "  nueva  " : Option String).getD "") = "" →
      postItems ⟨[⟨1, "hola", "t0"⟩], 1⟩ (some "  nueva  ") "t1" =
        ⟨400, ⟨[⟨1, "hola", "t0"⟩], 1⟩⟩) ∧
    titlesOk (putItem ⟨[⟨1, "hola", "t0"⟩], 1⟩ (some 1) (some "  nueva  ") "t1").db ∧
    (jsTrim ((some "  nueva  " : Option String).getD "") = "" →
      (putItem ⟨[⟨1, "hola", "t0"⟩], 1⟩ (some 1) (some "  nueva  ") "t1").status = 400 ∧
      (putItem ⟨[⟨1, "hola", "t0"⟩], 1⟩ (some 1) (some "  nueva  ") "t1").db =
        ⟨[⟨1, "hola", "t0"⟩], 1⟩) ∧
    titlesOk (deleteItem ⟨[⟨1, "hola", "t0"⟩], 1⟩ (some 1)).db :=
  items_title_invariant ⟨[⟨1, "hola", "t0"⟩], 1⟩ (some "  nueva  ") (some 1) "t1"
    (by
      intro it hit
      rcases List.mem_singleton.mp hit with rfl
      exact ⟨by decide, by decide⟩)

end LanCrud
